import Mathlib

/-!
Verification of the FF78 launcher IPC protocol (ff78-launcher-rs).

Shallow embedding of `src/launcher.rs`, `src/main.rs` and `src/config.rs`.
Machine integers are modelled as `Nat` (with explicit `% 2^32` where Rust
casts to `u32`); OS calls (filesystem probes, known-folder lookup, the
current working directory, semaphore handles) are modelled as explicit
inputs; writes into the shared-memory mailbox and semaphore operations are
modelled as events in a trace.
-/

namespace FF78

/-- `StoreType` from `src/main.rs`. -/
inductive StoreType
  | Standard
  | EStore
deriving DecidableEq, Repr

/-- `GameType` from `src/main.rs`. -/
inductive GameType
  | FF7 (store : StoreType)
  | FF8
deriving DecidableEq, Repr

/-- `APP_NAME` constant from `src/main.rs`. -/
def APP_NAME : String := "FF78Launcher"

/-! Field-id constants from `src/launcher.rs` lines 14-36. -/

def FF7_USER_SAVE_DIR : Nat := 10
def FF7_DOC_DIR : Nat := 11
def FF7_INSTALL_DIR : Nat := 12
def FF7_LOCALE_DATA_DIR : Nat := 13
def FF7_GAME_VERSION : Nat := 18
def FF7_DISABLE_CLOUD : Nat := 22
def FF7_END_USER_INFO : Nat := 24

def FF8_USER_SAVE_DIR : Nat := 9
def FF8_DOC_DIR : Nat := 10
def FF8_INSTALL_DIR : Nat := 11
def FF8_LOCALE_DATA_DIR : Nat := 12
def FF8_GAME_VERSION : Nat := 17
def FF8_DISABLE_CLOUD : Nat := 21
def FF8_BG_PAUSE_ENABLED : Nat := 23
def FF8_END_USER_INFO : Nat := 24

def ESTORE_USER_SAVE_DIR : Nat := 9
def ESTORE_DOC_DIR : Nat := 10
def ESTORE_INSTALL_DIR : Nat := 11
def ESTORE_LOCALE_DATA_DIR : Nat := 12
def ESTORE_GAME_VERSION : Nat := 17
def ESTORE_END_USER_INFO : Nat := 20

/-- Rust `u32::to_le_bytes`: the four little-endian bytes of the low 32 bits
of `n`.  (For `n < 2^32` this is exactly `to_le_bytes`; taking `/` and `%`
as below depends only on `n % 2^32`, so applying it to a `Nat` that stands
for a `u32` value is faithful.) -/
def u32ToLeBytes (n : Nat) : List Nat :=
  [n % 256, n / 256 % 256, n / 65536 % 256, n / 16777216 % 256]

/-- Rust `u16::to_le_bytes`: the two little-endian bytes of a UTF-16 code
unit. -/
def u16ToLeBytes (c : Nat) : List Nat :=
  [c % 256, c / 256 % 256]

/-- One `char` encoded by Rust `char::encode_utf16`: code points below
`0x10000` give one code unit, larger ones a surrogate pair. -/
def encodeUtf16Char (c : Nat) : List Nat :=
  if c < 0x10000 then [c]
  else [0xD800 + (c - 0x10000) / 0x400, 0xDC00 + (c - 0x10000) % 0x400]

/-- Rust `str::encode_utf16` over a whole string (also models
`OsStrExt::encode_wide` for a valid-Unicode path). -/
def encodeUtf16 (s : String) : List Nat :=
  s.data.flatMap (fun c => encodeUtf16Char c.toNat)

/-- Little-endian read of the u32 at byte offset `off` of a byte list
(out-of-range bytes read as 0).  Used to decode the mailbox wire format. -/
def readU32LE (bytes : List Nat) (off : Nat) : Nat :=
  bytes.getD off 0 + 256 * bytes.getD (off + 1) 0
    + 65536 * bytes.getD (off + 2) 0 + 16777216 * bytes.getD (off + 3) 0

/-- Rust `str::starts_with` (the library `String.startsWith`), stated over
the character lists so that it evaluates by kernel reduction. -/
def strStartsWith (s pre : String) : Bool :=
  pre.data.isPrefixOf s.data

/-! ### Mailbox message encodings (`src/launcher.rs`)

Each `send_*` routine in the source builds a byte vector `bytes`
(field id, then for text messages the payload length as `u32` and the
UTF-16LE payload bytes), copies it into the launcher part of the shared
memory, and then performs the handshake `wait_for_game`.  The byte-building
part of each routine is embedded below as a `…_bytes` function; fallible
payload resolution is split into a `…_payload` function; the
write-then-handshake behaviour is a `…_run` event trace. -/

/-- Bytes built by `send_locale_data_dir` (launcher.rs lines 38-52):
field id per variant, `payload.len() as u32` little-endian, then the
UTF-16LE code units of `"lang-" + game_lang`. -/
def send_locale_data_dir_bytes (g : GameType) (game_lang : String) : List Nat :=
  let payload : List Nat := encodeUtf16 ("lang-" ++ game_lang)
  u32ToLeBytes (match g with
    | GameType.FF7 StoreType.Standard => FF7_LOCALE_DATA_DIR
    | GameType.FF7 StoreType.EStore => ESTORE_LOCALE_DATA_DIR
    | GameType.FF8 => FF8_LOCALE_DATA_DIR)
  ++ u32ToLeBytes payload.length
  ++ payload.flatMap u16ToLeBytes

/-- A directory entry as seen by `std::fs::read_dir`: its file name and
whether it is a directory. -/
structure DirEntry where
  name : String
  is_dir : Bool
deriving DecidableEq, Repr

/-- The filesystem facts consulted by `send_user_save_dir`:
whether `std::fs::exists("save")` (relative to the current working
directory) returns `Ok(true)`, and the entries of the resolved metadata
directory (`none` models a `read_dir` error). -/
structure SaveDirFs where
  save_exists : Bool
  metadata_entries : Option (List DirEntry)
deriving DecidableEq, Repr

/-- Payload string computed by `send_user_save_dir` (launcher.rs lines
70-94) from the resolved metadata path: if `"save"` exists in the current
working directory the literal `"\save"` is appended; otherwise the
directory is listed and the last entry that is a directory whose name
starts with `"user_"` is appended when found; `none` models the `?` on the
`read_dir` error. -/
def send_user_save_dir_payload (metadata_path : String) (fs : SaveDirFs) :
    Option String :=
  if fs.save_exists then some (metadata_path ++ "\\save")
  else
    match fs.metadata_entries with
    | none => none
    | some entries =>
      match (entries.filter
          (fun e => e.is_dir && strStartsWith e.name "user_")).getLast? with
      | some e => some (metadata_path ++ "\\" ++ e.name)
      | none => some metadata_path

/-- Bytes built by `send_user_save_dir` (launcher.rs lines 95-107) from the
resolved payload string. -/
def send_user_save_dir_bytes (g : GameType) (payload_str : String) : List Nat :=
  let payload : List Nat := encodeUtf16 payload_str
  u32ToLeBytes (match g with
    | GameType.FF7 StoreType.Standard => FF7_USER_SAVE_DIR
    | GameType.FF7 StoreType.EStore => ESTORE_USER_SAVE_DIR
    | GameType.FF8 => FF8_USER_SAVE_DIR)
  ++ u32ToLeBytes payload.length
  ++ payload.flatMap u16ToLeBytes

/-- Bytes built by `send_user_doc_dir` (launcher.rs lines 126-139) from the
resolved metadata path.  Note the `bytes.push(0)` at line 139: this message
appends one trailing NUL byte after the payload. -/
def send_user_doc_dir_bytes (g : GameType) (payload_str : String) : List Nat :=
  let payload : List Nat := encodeUtf16 payload_str
  u32ToLeBytes (match g with
    | GameType.FF7 StoreType.Standard => FF7_DOC_DIR
    | GameType.FF7 StoreType.EStore => ESTORE_DOC_DIR
    | GameType.FF8 => FF8_DOC_DIR)
  ++ u32ToLeBytes payload.length
  ++ payload.flatMap u16ToLeBytes
  ++ [0]

/-- Bytes built by `send_install_dir` (launcher.rs lines 158-171) from the
absolute current working directory.  No trailing byte is appended. -/
def send_install_dir_bytes (g : GameType) (cwd : String) : List Nat :=
  let payload : List Nat := encodeUtf16 cwd
  u32ToLeBytes (match g with
    | GameType.FF7 StoreType.Standard => FF7_INSTALL_DIR
    | GameType.FF7 StoreType.EStore => ESTORE_INSTALL_DIR
    | GameType.FF8 => FF8_INSTALL_DIR)
  ++ u32ToLeBytes payload.length
  ++ payload.flatMap u16ToLeBytes

/-- Bytes built by `send_game_version` (launcher.rs lines 190-202): payload
is `APP_NAME + " 1.0.0"`. -/
def send_game_version_bytes (g : GameType) : List Nat :=
  let payload : List Nat := encodeUtf16 (APP_NAME ++ " 1.0.0")
  u32ToLeBytes (match g with
    | GameType.FF7 StoreType.Standard => FF7_GAME_VERSION
    | GameType.FF7 StoreType.EStore => ESTORE_GAME_VERSION
    | GameType.FF8 => FF8_GAME_VERSION)
  ++ u32ToLeBytes payload.length
  ++ payload.flatMap u16ToLeBytes

/-- Bytes built by `send_launcher_completed` (launcher.rs lines 271-280):
the field id alone. -/
def send_launcher_completed_bytes (g : GameType) : List Nat :=
  u32ToLeBytes (match g with
    | GameType.FF7 StoreType.Standard => FF7_END_USER_INFO
    | GameType.FF7 StoreType.EStore => ESTORE_END_USER_INFO
    | GameType.FF8 => FF8_END_USER_INFO)

/-! ### Handshake event traces -/

/-- Observable actions of the outbound direction: a mailbox write of the
given bytes at the launcher offset, a `ReleaseSemaphore(game_can_read_sem,
n)` and a `WaitForSingleObject(game_did_read_sem, INFINITE)`. -/
inductive Event
  | write (bytes : List Nat)
  | releaseReady (count : Nat)
  | waitConsumed
deriving DecidableEq, Repr

/-- `wait_for_game` (launcher.rs lines 365-371): release the ready
semaphore by 1, then block indefinitely on the consumed semaphore. -/
def wait_for_game_events : List Event :=
  [Event.releaseReady 1, Event.waitConsumed]

/-- Trace of `send_locale_data_dir`: write the bytes, then handshake. -/
def send_locale_data_dir_run (g : GameType) (game_lang : String) : List Event :=
  Event.write (send_locale_data_dir_bytes g game_lang) :: wait_for_game_events

/-- Trace of `send_game_version`. -/
def send_game_version_run (g : GameType) : List Event :=
  Event.write (send_game_version_bytes g) :: wait_for_game_events

/-- Trace of `send_disable_cloud` (launcher.rs lines 220-243): early return
for the FF7 EStore edition (no write, no handshake); otherwise write just
the 4-byte field id and handshake. -/
def send_disable_cloud_run (g : GameType) : List Event :=
  match g with
  | GameType.FF7 StoreType.EStore => []
  | _ =>
    Event.write (u32ToLeBytes (match g with
      | GameType.FF7 _ => FF7_DISABLE_CLOUD
      | GameType.FF8 => FF8_DISABLE_CLOUD)) :: wait_for_game_events

/-- Trace of `send_bg_pause_enabled` (launcher.rs lines 245-269): early
return for any FF7 variant; for FF8 write the field id followed by the
little-endian u32 value 1, then handshake. -/
def send_bg_pause_enabled_run (g : GameType) : List Event :=
  match g with
  | GameType.FF7 _ => []
  | GameType.FF8 =>
    Event.write (u32ToLeBytes FF8_BG_PAUSE_ENABLED ++ u32ToLeBytes 1)
      :: wait_for_game_events

/-- Trace of `send_launcher_completed`. -/
def send_launcher_completed_run (g : GameType) : List Event :=
  Event.write (send_launcher_completed_bytes g) :: wait_for_game_events

/-! ### Path resolution and the full outbound protocol -/

/-- The OS facts consulted while resolving paths during the protocol:
whether `data/music_2` exists, the result of `SHGetKnownFolderPath` for the
Documents folder (`none` models failure), the current working directory
(`none` models a `current_dir`/`absolute(".")` failure), and the
save-directory filesystem facts. -/
structure ProtoWorld where
  music2_exists : Bool
  documents_path : Option String
  cwd : Option String
  save_fs : SaveDirFs
deriving DecidableEq, Repr

/-- `get_game_metadata_path` (launcher.rs lines 338-363): for a non-EStore
variant without a `data/music_2` directory, the per-user Documents folder
plus the Square Enix subfolder of the title; otherwise the current working
directory. -/
def get_game_metadata_path (g : GameType) (w : ProtoWorld) : Option String :=
  if (match g with
      | GameType.FF7 StoreType.EStore => false
      | _ => true) && !w.music2_exists then
    match w.documents_path with
    | none => none
    | some doc =>
      some (doc ++ "\\Square Enix\\FINAL FANTASY "
        ++ (match g with
            | GameType.FF7 _ => "VII Steam"
            | GameType.FF8 => "VIII Steam"))
  else w.cwd

/-- Trace of `send_user_save_dir` (launcher.rs lines 70-124): resolve the
metadata path, extend it into the payload, write the bytes, handshake.
`none` models an error returned through `?` before any write. -/
def send_user_save_dir_run (g : GameType) (w : ProtoWorld) :
    Option (List Event) :=
  match get_game_metadata_path g w with
  | none => none
  | some metadata_path =>
    match send_user_save_dir_payload metadata_path w.save_fs with
    | none => none
    | some payload_str =>
      some (Event.write (send_user_save_dir_bytes g payload_str)
        :: wait_for_game_events)

/-- Trace of `send_user_doc_dir` (launcher.rs lines 126-156). -/
def send_user_doc_dir_run (g : GameType) (w : ProtoWorld) :
    Option (List Event) :=
  match get_game_metadata_path g w with
  | none => none
  | some payload_str =>
    some (Event.write (send_user_doc_dir_bytes g payload_str)
      :: wait_for_game_events)

/-- Trace of `send_install_dir` (launcher.rs lines 158-188). -/
def send_install_dir_run (g : GameType) (w : ProtoWorld) :
    Option (List Event) :=
  match w.cwd with
  | none => none
  | some cwd =>
    some (Event.write (send_install_dir_bytes g cwd) :: wait_for_game_events)

/-- The 8-step outbound sequence exactly as driven by `launch_process`
(main.rs lines 226-233): locale, save dir, doc dir, install dir, version,
cloud-disable, background-pause, completion marker.  The boolean is `true`
when the whole sequence completed and `false` when a path-resolution error
aborted the remainder; events already produced are kept (handshaked steps
are not rolled back). -/
def protocol_run (g : GameType) (game_lang : String) (w : ProtoWorld) :
    List Event × Bool :=
  let ev1 := send_locale_data_dir_run g game_lang
  match send_user_save_dir_run g w with
  | none => (ev1, false)
  | some ev2 =>
    match send_user_doc_dir_run g w with
    | none => (ev1 ++ ev2, false)
    | some ev3 =>
      match send_install_dir_run g w with
      | none => (ev1 ++ ev2 ++ ev3, false)
      | some ev4 =>
        (ev1 ++ ev2 ++ ev3 ++ ev4
          ++ send_game_version_run g
          ++ send_disable_cloud_run g
          ++ send_bg_pause_enabled_run g
          ++ send_launcher_completed_run g, true)

/-- The expected catalogue of mailbox messages of one session, in the fixed
order of §4.3 of the spec, with the variant-specific skips: the
cloud-disable message is omitted for the FF7 EStore edition and the
background-pause message is omitted for both FF7 editions. -/
def protocol_messages (g : GameType)
    (game_lang save_payload doc_payload install_payload : String) :
    List (List Nat) :=
  [send_locale_data_dir_bytes g game_lang,
   send_user_save_dir_bytes g save_payload,
   send_user_doc_dir_bytes g doc_payload,
   send_install_dir_bytes g install_payload,
   send_game_version_bytes g]
  ++ (match g with
      | GameType.FF7 StoreType.EStore => []
      | GameType.FF7 StoreType.Standard => [u32ToLeBytes FF7_DISABLE_CLOUD]
      | GameType.FF8 => [u32ToLeBytes FF8_DISABLE_CLOUD])
  ++ (match g with
      | GameType.FF7 _ => []
      | GameType.FF8 => [u32ToLeBytes FF8_BG_PAUSE_ENABLED ++ u32ToLeBytes 1])
  ++ [send_launcher_completed_bytes g]

/-! ### The game-message listener (`handle_game_messages_thread`,
main.rs lines 272-302)

The loop body is: check the stop channel once (`try_recv`), break on a
stop message or a disconnected channel; otherwise block on
`launcher_can_read_sem`, then release `launcher_did_read_sem` by 1; after
the loop both handles are closed.  It is modelled as a small-step machine
whose program counter is either at the top-of-loop check, at the blocking
wait, or past the loop. -/

/-- Program counter of the listener loop. -/
inductive ListenerPC
  | atCheck
  | atWait
  | done
deriving DecidableEq, Repr

/-- State of the listener thread together with the two inbound semaphores:
counts of `launcher_can_read_sem` and `launcher_did_read_sem` (binary
semaphores, max count 1) and whether each handle has been closed. -/
structure ListenerState where
  pc : ListenerPC
  can_read_count : Nat
  did_read_count : Nat
  can_read_closed : Bool
  did_read_closed : Bool
deriving DecidableEq, Repr

/-- One scheduling step of the listener.  `stop_signaled` is true once a
stop message has been sent on the kill channel (or the channel is
disconnected).  At the check the signal is consulted: if set, the loop
breaks and both `CloseHandle` calls run; otherwise the thread moves to the
blocking wait.  At the wait the thread can step only when
`launcher_can_read_sem` has a unit to consume; it then releases
`launcher_did_read_sem` (capped at the max count 1) and returns to the
check; with no unit available the thread stays blocked. -/
def listener_step (stop_signaled : Bool) (s : ListenerState) : ListenerState :=
  match s.pc with
  | ListenerPC.atCheck =>
    if stop_signaled then
      { s with pc := ListenerPC.done,
               did_read_closed := true, can_read_closed := true }
    else { s with pc := ListenerPC.atWait }
  | ListenerPC.atWait =>
    if 0 < s.can_read_count then
      { s with pc := ListenerPC.atCheck,
               can_read_count := s.can_read_count - 1,
               did_read_count := min (s.did_read_count + 1) 1 }
    else s
  | ListenerPC.done => s

/-- Observable actions of one pass through the listener loop body. -/
inductive LEvent
  | checkStop
  | waitCanRead
  | releaseDidRead
  | closeHandles
deriving DecidableEq, Repr

/-- The actions of one loop iteration, in source order: the stop check
comes first; a set signal leads straight to the handle-closing epilogue,
an unset one to the blocking wait followed by the release. -/
def listener_iteration_events (stop_signaled : Bool) : List LEvent :=
  if stop_signaled then [LEvent.checkStop, LEvent.closeHandles]
  else [LEvent.checkStop, LEvent.waitCanRead, LEvent.releaseDidRead]

/-! ### Configuration loading (`src/config.rs`) -/

/-- A parsed TOML value, as far as `Config::from_config_file` inspects one
(`as_bool` / `as_integer`). -/
inductive TomlValue
  | boolVal (b : Bool)
  | intVal (n : Int)
  | strVal (s : String)
deriving DecidableEq, Repr

/-- `toml::Value::as_bool`. -/
def TomlValue.as_bool : TomlValue → Option Bool
  | TomlValue.boolVal b => some b
  | _ => none

/-- `toml::Value::as_integer`. -/
def TomlValue.as_integer : TomlValue → Option Int
  | TomlValue.intVal n => some n
  | _ => none

/-- A parsed TOML table (`toml::Table`), keyed lookup only. -/
def TomlTable := List (String × TomlValue)

/-- `toml::Table::get`. -/
def tableGet (t : TomlTable) (key : String) : Option TomlValue :=
  (t.find? (fun kv => kv.1 == key)).map Prod.snd

/-- The display mode returned by `EnumDisplaySettingsA` with
`ENUM_CURRENT_SETTINGS`: whether the call succeeded and the `DEVMODEA`
width/height/frequency fields. -/
structure DisplaySettings where
  found : Bool
  width : Nat
  height : Nat
  frequency : Nat
deriving DecidableEq, Repr

/-- Rust `(v.max(0)) as u32` on an `i64`: clamp below at 0, then truncate
to the low 32 bits. -/
def i64Max0AsU32 (v : Int) : Nat := (max v 0).toNat % 2 ^ 32

/-- Rust `(v.max(0)) as i32` on an `i64`: clamp below at 0, truncate to 32
bits, reinterpret as two's-complement. -/
def i64Max0AsI32 (v : Int) : Int :=
  let r : Nat := (max v 0).toNat % 2 ^ 32
  if r < 2 ^ 31 then (r : Int) else (r : Int) - 2 ^ 32

/-- The `Config` struct from `src/config.rs` (field `keep_aspect` embeds
the source's aspect-ratio flag). -/
structure Config where
  fullscreen : Bool
  window_width : Nat
  window_height : Nat
  refresh_rate : Nat
  enable_linear_filtering : Bool
  keep_aspect : Bool
  original_mode : Bool
  pause_game_on_background : Bool
  sfx_volume : Int
  music_volume : Int
  launch_chocobo : Bool
deriving DecidableEq, Repr

/-- `Config::from_config_file` (config.rs lines 40-129), embedded from the
point where the file contents have been parsed into a TOML table (a
missing file parses as the empty table; a parse failure is an `Err` handled
by the caller).  `display` stands for the `EnumDisplaySettingsA` call.
Note config.rs lines 94-97: for any FF7 variant, `pause_game_on_background`
and `launch_chocobo` are forced to `false` after reading the table. -/
def Config.from_config_file (table : TomlTable) (display : DisplaySettings)
    (game_type : GameType) : Config :=
  let fullscreen := ((tableGet table "fullscreen").bind TomlValue.as_bool).getD false
  let window_width :=
    i64Max0AsU32 (((tableGet table "window_width").bind TomlValue.as_integer).getD 0)
  let window_height :=
    i64Max0AsU32 (((tableGet table "window_height").bind TomlValue.as_integer).getD 0)
  let refresh_rate :=
    i64Max0AsU32 (((tableGet table "refresh_rate").bind TomlValue.as_integer).getD 0)
  let dims :=
    if window_width == 0 && window_height == 0 then
      if fullscreen && display.found then
        (display.width, display.height,
         if refresh_rate == 0 then display.frequency else refresh_rate)
      else
        (640, 480, if refresh_rate == 0 then 60 else refresh_rate)
    else (window_width, window_height, refresh_rate)
  let pause_game_on_background :=
    ((tableGet table "pause_game_on_background").bind TomlValue.as_bool).getD false
  let launch_chocobo :=
    ((tableGet table "launch_chocobo").bind TomlValue.as_bool).getD false
  let flags :=
    match game_type with
    | GameType.FF7 _ => (false, false)
    | GameType.FF8 => (pause_game_on_background, launch_chocobo)
  { fullscreen := fullscreen
    window_width := dims.1
    window_height := dims.2.1
    refresh_rate := dims.2.2
    enable_linear_filtering :=
      ((tableGet table "enable_linear_filtering").bind TomlValue.as_bool).getD false
    keep_aspect :=
      ((tableGet table "keep_aspect_ratio").bind TomlValue.as_bool).getD false
    original_mode :=
      ((tableGet table "original_mode").bind TomlValue.as_bool).getD false
    pause_game_on_background := flags.1
    sfx_volume :=
      i64Max0AsI32 (((tableGet table "sfx_volume").bind TomlValue.as_integer).getD 0)
    music_volume :=
      i64Max0AsI32 (((tableGet table "music_volume").bind TomlValue.as_integer).getD 0)
    launch_chocobo := flags.2 }

/-! ### `launch_process` (`src/main.rs` lines 116-270) -/

/-- `PROCESSES` from main.rs lines 40-54: the 11 known game executables. -/
def PROCESSES : List String :=
  ["ff7_de.exe", "ff7_en.exe", "ff7_es.exe", "ff7_fr.exe", "ff7_ja.exe",
   "ff8_de.exe", "ff8_en.exe", "ff8_es.exe", "ff8_fr.exe", "ff8_it.exe",
   "ff8_ja.exe"]

/-- Fuel-driven core of `str::trim_end_matches` over character lists:
repeatedly strip the pattern from the end.  Each strip removes at least one
character, so the string length is enough fuel. -/
def trimEndMatchesAux : Nat → List Char → List Char → List Char
  | 0, s, _ => s
  | fuel + 1, s, pat =>
    if 0 < pat.length && pat.isSuffixOf s then
      trimEndMatchesAux fuel (s.take (s.length - pat.length)) pat
    else s

/-- Rust `str::trim_end_matches`. -/
def trimEndMatches (s pat : String) : String :=
  String.mk (trimEndMatchesAux s.data.length s.data pat.data)

/-- Rust `str::split` on a single separator character, over the character
list: always yields at least one (possibly empty) piece. -/
def splitOnCharAux : List Char → Char → List Char → List (List Char)
  | [], _, acc => [acc.reverse]
  | c :: rest, sep, acc =>
    if c == sep then acc.reverse :: splitOnCharAux rest sep []
    else splitOnCharAux rest sep (c :: acc)

/-- The language extraction of main.rs lines 144-148:
`process_to_start.split('_').take(2).last().map(trim_end_matches(".exe"))`. -/
def extractLang (process_to_start : String) : Option String :=
  (((splitOnCharAux process_to_start.data '_' []).take 2).getLast?).map
    (fun cs => trimEndMatches (String.mk cs) ".exe")

/-- The `game_to_launch` dispatch of main.rs lines 131-140: an `ff8`-named
executable selects FF8; `ff7_ja` with an `AF3DN.P` smaller than 1 MiB
selects the FF7 EStore edition; anything else FF7 Standard.
`af3dn_size` is `fs::metadata(AF3DN_FILE).file_size()` (`none`: no file). -/
def detect_game_type (process_to_start : String) (af3dn_size : Option Nat) :
    GameType :=
  if strStartsWith process_to_start "ff8" then GameType.FF8
  else if strStartsWith process_to_start "ff7_ja"
      && (match af3dn_size with
          | some sz => decide (sz < 1024 * 1024)
          | none => false) then
    GameType.FF7 StoreType.EStore
  else GameType.FF7 StoreType.Standard

/-- The `use_ffnx` detection of main.rs lines 142-143: `AF3DN.P` exists and
is strictly larger than 1 MiB. -/
def detect_use_ffnx (af3dn_size : Option Nat) : Bool :=
  match af3dn_size with
  | some sz => decide (1024 * 1024 < sz)
  | none => false

/-- All OS facts `launch_process` consults: per-file existence, the
`AF3DN.P` size, the parsed configuration table (`none`: the TOML parse
failed), the current display mode, whether `fs::canonicalize` on the chosen
executable succeeds, whether the two preference-file writes succeed, and
the protocol-side world. -/
structure World where
  file_exists : String → Bool
  af3dn_size : Option Nat
  config_table : Option TomlTable
  display : DisplaySettings
  canonicalize_ok : Bool
  ffvideo_ok : Bool
  ffsound_ok : Bool
  proto : ProtoWorld

/-- The distinct failure exits of `launch_process`. -/
inductive LaunchError
  | tooManyProcesses
  | noProcessFound
  | noLanguageFound
  | configError
  | canonicalizeError
  | videoWriteError
  | soundWriteError
  | protocolPathError
deriving DecidableEq, Repr

/-- Observable actions of `launch_process`, in the order performed. -/
inductive Action
  | writeVideoCfg
  | writeSoundCfg
  | createSemaphore (name : String)
  | createFileMapping (name : String) (size : Nat)
  | mapView
  | spawnListenerThread
  | spawnProcess (name : String)
  | protocolEvent (e : Event)
  | waitProcess
  | sendThreadKill
  | releaseLauncherCanRead
  | joinThread
  | unmapView
  | closeHandle (name : String)
deriving DecidableEq, Repr

/-- The non-FFNx branch of `launch_process` (main.rs lines 174-257): write
the preference files (only when FFNx is absent), create the outbound
semaphore pair and the shared-memory mailbox, map it, start the listener
thread, spawn the game, run the 8-message protocol, wait for the game to
exit, signal the listener to stop, create and release
`launcherCanReadMsgSem` so a blocked listener wakes, join it, then unmap
and close every handle. -/
def launch_with_ipc (g : GameType) (game_lang : String) (config : Config)
    (use_ffnx : Bool) (process_to_start : String) (w : World) :
    List Action × Option LaunchError :=
  if !use_ffnx && !w.ffvideo_ok then ([], some LaunchError.videoWriteError)
  else if !use_ffnx && !w.ffsound_ok then
    ([Action.writeVideoCfg], some LaunchError.soundWriteError)
  else
    let pre : List Action :=
      if !use_ffnx then [Action.writeVideoCfg, Action.writeSoundCfg] else []
    let root : String :=
      if config.launch_chocobo then "choco"
      else match g with
        | GameType.FF7 _ => "ff7"
        | GameType.FF8 => "ff8"
    let setup : List Action :=
      [Action.createSemaphore (root ++ "_gameCanReadMsgSem"),
       Action.createSemaphore (root ++ "_gameDidReadMsgSem"),
       Action.createFileMapping (root ++ "_sharedMemoryWithLauncher") 0x20000,
       Action.mapView,
       Action.spawnListenerThread,
       Action.spawnProcess process_to_start]
    let proto := protocol_run g game_lang w.proto
    let proto_actions := proto.1.map Action.protocolEvent
    if !proto.2 then
      (pre ++ setup ++ proto_actions, some LaunchError.protocolPathError)
    else
      (pre ++ setup ++ proto_actions
        ++ [Action.waitProcess, Action.sendThreadKill,
            Action.createSemaphore (root ++ "_launcherCanReadMsgSem"),
            Action.releaseLauncherCanRead, Action.joinThread,
            Action.unmapView,
            Action.closeHandle "shared_memory",
            Action.closeHandle "game_did_read_sem",
            Action.closeHandle "game_can_read_sem",
            Action.closeHandle "launcher_can_read_sem"], none)

/-- `launch_process` (main.rs lines 116-270) as a function from the OS
facts to the performed actions and the optional error it returns.  Control
flow follows the source: filter the candidate list, reject more than one or
none, detect the variant and FFNx, extract the language, load the
configuration, possibly divert to the chocobo executable, canonicalize,
and then either run the full IPC session or (FFNx present and chocobo not
requested) just spawn and wait. -/
def launch_process_run (w : World) : List Action × Option LaunchError :=
  let processes_available := PROCESSES.filter w.file_exists
  if 1 < processes_available.length then ([], some LaunchError.tooManyProcesses)
  else
    match processes_available.head? with
    | none => ([], some LaunchError.noProcessFound)
    | some p =>
      let game_to_launch := detect_game_type p w.af3dn_size
      let use_ffnx := detect_use_ffnx w.af3dn_size
      match extractLang p with
      | none => ([], some LaunchError.noLanguageFound)
      | some game_lang =>
        match w.config_table with
        | none => ([], some LaunchError.configError)
        | some table =>
          let config := Config.from_config_file table w.display game_to_launch
          let process_to_start :=
            if config.launch_chocobo then "chocobo_" ++ game_lang ++ ".exe"
            else p
          if !w.canonicalize_ok then ([], some LaunchError.canonicalizeError)
          else if !use_ffnx || config.launch_chocobo then
            launch_with_ipc game_to_launch game_lang config use_ffnx
              process_to_start w
          else
            ([Action.spawnProcess process_to_start, Action.waitProcess], none)

/-! ### Spec-side formulations of the save-directory extension

Two formulations of the §4.3 step-2 sentence, to be compared with the
source-derived `send_user_save_dir_payload`. -/

/-- The save-directory extension exactly as the claim words it: the
resolved metadata path is extended by a discovered `user_<id>`
subdirectory when one is present, and otherwise by the literal `"\save"`
suffix. -/
def save_dir_payload_claimed (metadata_path : String) (fs : SaveDirFs) :
    Option String :=
  match fs.metadata_entries with
  | none => none
  | some entries =>
    match (entries.filter
        (fun e => e.is_dir && strStartsWith e.name "user_")).getLast? with
    | some e => some (metadata_path ++ "\\" ++ e.name)
    | none => some (metadata_path ++ "\\save")

/-- The save-directory extension as amended to match the source: when an
entry named `save` exists in the current working directory the literal
`"\save"` suffix is appended; otherwise the path is extended by the last
discovered `user_<id>` subdirectory of the metadata directory when one is
present, and otherwise left unchanged (failing only when the metadata
directory cannot be listed). -/
def save_dir_payload_amended (metadata_path : String) (fs : SaveDirFs) :
    Option String :=
  if fs.save_exists then some (metadata_path ++ "\\save")
  else
    fs.metadata_entries.map (fun entries =>
      match (entries.filter
          (fun e => e.is_dir && strStartsWith e.name "user_")).getLast? with
      | some e => metadata_path ++ "\\" ++ e.name
      | none => metadata_path)

/-! ## Theorems

Shared decoding lemmas first, then one theorem (plus the required
counterexamples and witnesses) per claim. -/

/-- The UTF-16LE byte serialisation of a code-unit list is twice as long as
the list. -/
theorem length_flatMap_u16 (p : List Nat) :
    (p.flatMap u16ToLeBytes).length = 2 * p.length := by
  induction p with
  | nil => rfl
  | cons a t ih => simp [List.flatMap_cons, u16ToLeBytes] at ih ⊢; omega

/-- Reading the second little-endian u32 of a framed message recovers the
encoded length field. -/
theorem readU32LE_header (a n : Nat) (rest : List Nat) (h : n < 2 ^ 32) :
    readU32LE (u32ToLeBytes a ++ u32ToLeBytes n ++ rest) 4 = n := by
  simp [u32ToLeBytes, readU32LE, List.getD]
  omega

/-- Dropping the 8-byte header of a framed message leaves the payload
bytes. -/
theorem drop8_header (a n : Nat) (rest : List Nat) :
    (u32ToLeBytes a ++ u32ToLeBytes n ++ rest).drop 8 = rest := by
  simp [u32ToLeBytes]

/-- The last element of a list with one element appended. -/
theorem getLast?_append_single (l : List Nat) (a : Nat) :
    (l ++ [a]).getLast? = some a := by
  simp [List.getLast?_append]

/-- C1 (counterexample).  The claim that the second little-endian u32 field
of a text message equals the byte count of the UTF-16LE payload that
follows is false on the code: for the locale message of FF7 Standard with
language `"en"`, the field holds 7 (the UTF-16 code-unit count of
`"lang-en"`) while 14 payload bytes follow. -/
theorem locale_payload_len_byte_count_refuted :
    readU32LE (send_locale_data_dir_bytes (GameType.FF7 StoreType.Standard) "en") 4 = 7
  ∧ ((send_locale_data_dir_bytes (GameType.FF7 StoreType.Standard) "en").drop 8).length = 14
  ∧ (7 : Nat) ≠ 14 := by
  refine ⟨by decide, by decide, by decide⟩

/-- C1 (amended).  For every text-payload message (locale, save directory,
document directory, install directory, game version), the second
little-endian u32 field written into the mailbox equals the UTF-16 code-unit
count of the payload — half the byte count of the UTF-16LE-encoded text that
follows it — and the bytes following the 8-byte header number exactly twice
that count (plus the one trailing NUL of the document-directory message). -/
theorem payload_len_counts_code_units (g : GameType)
    (game_lang save_payload doc_payload install_payload : String)
    (h1 : (encodeUtf16 ("lang-" ++ game_lang)).length < 2 ^ 32)
    (h2 : (encodeUtf16 save_payload).length < 2 ^ 32)
    (h3 : (encodeUtf16 doc_payload).length < 2 ^ 32)
    (h4 : (encodeUtf16 install_payload).length < 2 ^ 32) :
    (readU32LE (send_locale_data_dir_bytes g game_lang) 4
        = (encodeUtf16 ("lang-" ++ game_lang)).length
      ∧ ((send_locale_data_dir_bytes g game_lang).drop 8).length
        = 2 * (encodeUtf16 ("lang-" ++ game_lang)).length)
  ∧ (readU32LE (send_user_save_dir_bytes g save_payload) 4
        = (encodeUtf16 save_payload).length
      ∧ ((send_user_save_dir_bytes g save_payload).drop 8).length
        = 2 * (encodeUtf16 save_payload).length)
  ∧ (readU32LE (send_user_doc_dir_bytes g doc_payload) 4
        = (encodeUtf16 doc_payload).length
      ∧ ((send_user_doc_dir_bytes g doc_payload).drop 8).length
        = 2 * (encodeUtf16 doc_payload).length + 1)
  ∧ (readU32LE (send_install_dir_bytes g install_payload) 4
        = (encodeUtf16 install_payload).length
      ∧ ((send_install_dir_bytes g install_payload).drop 8).length
        = 2 * (encodeUtf16 install_payload).length)
  ∧ (readU32LE (send_game_version_bytes g) 4
        = (encodeUtf16 (APP_NAME ++ " 1.0.0")).length
      ∧ ((send_game_version_bytes g).drop 8).length
        = 2 * (encodeUtf16 (APP_NAME ++ " 1.0.0")).length) := by
  have hv : (encodeUtf16 (APP_NAME ++ " 1.0.0")).length < 2 ^ 32 := by decide
  refine ⟨⟨?_, ?_⟩, ⟨?_, ?_⟩, ⟨?_, ?_⟩, ⟨?_, ?_⟩, ⟨?_, ?_⟩⟩
  · simp only [send_locale_data_dir_bytes]
    exact readU32LE_header _ _ _ h1
  · simp only [send_locale_data_dir_bytes, drop8_header, length_flatMap_u16]
  · simp only [send_user_save_dir_bytes]
    exact readU32LE_header _ _ _ h2
  · simp only [send_user_save_dir_bytes, drop8_header, length_flatMap_u16]
  · simp only [send_user_doc_dir_bytes, List.append_assoc]
    exact readU32LE_header _ _ _ h3
  · simp only [send_user_doc_dir_bytes]
    rw [List.append_assoc, drop8_header, List.length_append, length_flatMap_u16]
    rfl
  · simp only [send_install_dir_bytes]
    exact readU32LE_header _ _ _ h4
  · simp only [send_install_dir_bytes, drop8_header, length_flatMap_u16]
  · simp only [send_game_version_bytes]
    exact readU32LE_header _ _ _ hv
  · simp only [send_game_version_bytes, drop8_header, length_flatMap_u16]

/-- C1 (witness).  The amended statement instantiated at FF7 Standard with
language `"en"` and one-character paths. -/
theorem payload_len_counts_code_units_witness :
    readU32LE (send_locale_data_dir_bytes (GameType.FF7 StoreType.Standard) "en") 4
      = (encodeUtf16 ("lang-" ++ "en")).length
  ∧ ((send_user_doc_dir_bytes (GameType.FF7 StoreType.Standard) "D").drop 8).length
      = 2 * (encodeUtf16 "D").length + 1 :=
  ⟨(payload_len_counts_code_units (GameType.FF7 StoreType.Standard)
      "en" "S" "D" "I" (by decide) (by decide) (by decide) (by decide)).1.1,
   (payload_len_counts_code_units (GameType.FF7 StoreType.Standard)
      "en" "S" "D" "I" (by decide) (by decide) (by decide) (by decide)).2.2.1.2⟩

/-- C2 (counterexample).  The claim that the install-directory message is
the message carrying one trailing NUL beyond its payload is false on the
code: for FF7 Standard with a 4-character path, the install-directory
encoding is exactly the 8-byte header plus the 8 payload bytes, while the
document-directory encoding of the same path carries one extra byte beyond
the payload, a NUL.  (`bytes.push(0)` sits in `send_user_doc_dir`, not in
`send_install_dir`.) -/
theorem install_dir_trailing_nul_refuted :
    (send_install_dir_bytes (GameType.FF7 StoreType.Standard) "C:\\g").length
      = 8 + 2 * 4
  ∧ (send_user_doc_dir_bytes (GameType.FF7 StoreType.Standard) "C:\\g").length
      = 8 + 2 * 4 + 1
  ∧ (send_user_doc_dir_bytes (GameType.FF7 StoreType.Standard) "C:\\g").getLast?
      = some 0 := by
  refine ⟨by decide, by decide, by decide⟩

/-- C2 (amended).  The document-directory message is the only message of
the 8-step sequence whose encoding appends a trailing NUL byte — exactly
one byte, value 0, beyond the encoded payload — while the other four
text messages (locale, save directory, install directory, game version)
end exactly at the end of their encoded payload. -/
theorem doc_dir_only_trailing_nul (g : GameType)
    (game_lang save_payload doc_payload install_payload : String) :
    ((send_user_doc_dir_bytes g doc_payload).length
        = 8 + 2 * (encodeUtf16 doc_payload).length + 1
      ∧ (send_user_doc_dir_bytes g doc_payload).getLast? = some 0)
  ∧ (send_locale_data_dir_bytes g game_lang).length
      = 8 + 2 * (encodeUtf16 ("lang-" ++ game_lang)).length
  ∧ (send_user_save_dir_bytes g save_payload).length
      = 8 + 2 * (encodeUtf16 save_payload).length
  ∧ (send_install_dir_bytes g install_payload).length
      = 8 + 2 * (encodeUtf16 install_payload).length
  ∧ (send_game_version_bytes g).length
      = 8 + 2 * (encodeUtf16 (APP_NAME ++ " 1.0.0")).length := by
  refine ⟨⟨?_, ?_⟩, ?_, ?_, ?_, ?_⟩
  · simp only [send_user_doc_dir_bytes, List.length_append, length_flatMap_u16,
      u32ToLeBytes, List.length_cons, List.length_nil]
  · simp only [send_user_doc_dir_bytes]
    exact getLast?_append_single _ _
  · simp only [send_locale_data_dir_bytes, List.length_append, length_flatMap_u16,
      u32ToLeBytes, List.length_cons, List.length_nil]
  · simp only [send_user_save_dir_bytes, List.length_append, length_flatMap_u16,
      u32ToLeBytes, List.length_cons, List.length_nil]
  · simp only [send_install_dir_bytes, List.length_append, length_flatMap_u16,
      u32ToLeBytes, List.length_cons, List.length_nil]
  · simp only [send_game_version_bytes, List.length_append, length_flatMap_u16,
      u32ToLeBytes, List.length_cons, List.length_nil]

/-- C4 (counterexample).  The claimed extension rule — a discovered
`user_<id>` subdirectory takes priority, `"\save"` is the fallback — is
false on the code: when an entry named `save` exists in the current working
directory AND a `user_1` subdirectory is discovered, the code appends
`"\save"`, not `"\user_1"` as the claim requires. -/
theorem save_dir_extension_refuted :
    send_user_save_dir_payload "M"
        (SaveDirFs.mk true (some [DirEntry.mk "user_1" true])) = some "M\\save"
  ∧ save_dir_payload_claimed "M"
        (SaveDirFs.mk true (some [DirEntry.mk "user_1" true])) = some "M\\user_1"
  ∧ ("M\\save" : String) ≠ "M\\user_1" := by
  refine ⟨by decide, by decide, by decide⟩

/-- C4 (amended).  The save-directory payload follows the amended rule:
the literal `"\save"` suffix is appended whenever an entry named `save`
exists in the current working directory; only otherwise is the path
extended by the last discovered `user_<id>` subdirectory when one is
present, and left unchanged when none is. -/
theorem save_dir_extension_amended (metadata_path : String) (fs : SaveDirFs) :
    send_user_save_dir_payload metadata_path fs
      = save_dir_payload_amended metadata_path fs := by
  unfold send_user_save_dir_payload save_dir_payload_amended
  rcases fs with ⟨se, entries⟩
  cases se
  · rcases entries with _ | es
    · rfl
    · cases hu : (es.filter
          (fun e => e.is_dir && strStartsWith e.name "user_")).getLast? <;>
        simp only [Option.map_some'] <;> rw [hu]
  · rfl

/-- C5 (confirmed).  For FF8 the background-pause send writes one mailbox
message of exactly 8 bytes — the field id followed by the little-endian u32
value 1 — and then performs the handshake; for either FF7 edition the
function returns before any write or handshake. -/
theorem bg_pause_ff8_only (s : StoreType) :
    (∃ bytes, send_bg_pause_enabled_run GameType.FF8
        = Event.write bytes :: wait_for_game_events
      ∧ bytes.length = 8
      ∧ readU32LE bytes 0 = FF8_BG_PAUSE_ENABLED
      ∧ readU32LE bytes 4 = 1)
  ∧ send_bg_pause_enabled_run (GameType.FF7 s) = [] := by
  refine ⟨⟨u32ToLeBytes FF8_BG_PAUSE_ENABLED ++ u32ToLeBytes 1,
    rfl, by decide, by decide, by decide⟩, by cases s <;> rfl⟩

/-- C6 (confirmed).  The cloud-disable send is skipped entirely for the FF7
EStore edition (no write, no handshake); for FF7 Standard and FF8 it writes
exactly the 4 little-endian bytes of the variant's field id, nothing else,
and performs the handshake. -/
theorem disable_cloud_flag_only :
    send_disable_cloud_run (GameType.FF7 StoreType.EStore) = []
  ∧ (∃ bytes, send_disable_cloud_run (GameType.FF7 StoreType.Standard)
        = Event.write bytes :: wait_for_game_events
      ∧ bytes.length = 4
      ∧ readU32LE bytes 0 = FF7_DISABLE_CLOUD)
  ∧ (∃ bytes, send_disable_cloud_run GameType.FF8
        = Event.write bytes :: wait_for_game_events
      ∧ bytes.length = 4
      ∧ readU32LE bytes 0 = FF8_DISABLE_CLOUD) := by
  refine ⟨rfl,
    ⟨u32ToLeBytes FF7_DISABLE_CLOUD, rfl, by decide, by decide⟩,
    ⟨u32ToLeBytes FF8_DISABLE_CLOUD, rfl, by decide, by decide⟩⟩

/-- C3 (confirmed).  In every session whose path resolutions succeed, the
outbound protocol produces exactly the catalogue of messages of
`protocol_messages` — locale, save directory, document directory, install
directory, game version, cloud-disable, background-pause, completion
marker, with the variant-specific skips — strictly sequentially: each
message's mailbox write is immediately followed by a release of the ready
semaphore by exactly 1 and then the indefinite block on the consumed
semaphore, before the next message's write. -/
theorem protocol_strict_order (g : GameType) (game_lang : String)
    (w : ProtoWorld) (mp sp cwd : String)
    (hmp : get_game_metadata_path g w = some mp)
    (hsp : send_user_save_dir_payload mp w.save_fs = some sp)
    (hcwd : w.cwd = some cwd) :
    protocol_run g game_lang w
      = ((protocol_messages g game_lang sp mp cwd).flatMap
          (fun m => Event.write m :: wait_for_game_events), true) := by
  cases g with
  | FF7 s =>
    cases s <;>
      simp [protocol_run, protocol_messages, send_user_save_dir_run,
        send_user_doc_dir_run, send_install_dir_run, send_locale_data_dir_run,
        send_game_version_run, send_disable_cloud_run,
        send_bg_pause_enabled_run, send_launcher_completed_run,
        wait_for_game_events, hmp, hsp, hcwd]
  | FF8 =>
    simp [protocol_run, protocol_messages, send_user_save_dir_run,
      send_user_doc_dir_run, send_install_dir_run, send_locale_data_dir_run,
      send_game_version_run, send_disable_cloud_run,
      send_bg_pause_enabled_run, send_launcher_completed_run,
      wait_for_game_events, hmp, hsp, hcwd]

/-- C3 (witness).  The ordering theorem instantiated for an FF8 session
whose metadata path resolves to the working directory `C:\game` with a
local `save` directory present. -/
theorem protocol_strict_order_witness :
    protocol_run GameType.FF8 "en"
        (ProtoWorld.mk true none (some "C:\\game") (SaveDirFs.mk true (some [])))
      = ((protocol_messages GameType.FF8 "en" "C:\\game\\save" "C:\\game"
            "C:\\game").flatMap
          (fun m => Event.write m :: wait_for_game_events), true) :=
  protocol_strict_order GameType.FF8 "en"
    (ProtoWorld.mk true none (some "C:\\game") (SaveDirFs.mk true (some [])))
    "C:\\game" "C:\\game\\save" "C:\\game" rfl (by decide) rfl

/-- C7 (confirmed).  The listener checks its stop signal exactly once per
iteration — as the first action of the iteration, before the blocking wait
and never during it — and from any not-yet-terminated state, once the stop
signal is set and the game-side ready semaphore holds at least one unit,
two steps (at most one further iteration) bring the loop to its terminated
state with both semaphore handles closed. -/
theorem listener_stop_within_one_iteration (s : ListenerState)
    (h1 : s.pc ≠ ListenerPC.done) (h2 : 1 ≤ s.can_read_count) :
    ((listener_step true (listener_step true s)).pc = ListenerPC.done
      ∧ (listener_step true (listener_step true s)).can_read_closed = true
      ∧ (listener_step true (listener_step true s)).did_read_closed = true)
  ∧ (∀ stop_signaled : Bool,
      (listener_iteration_events stop_signaled).count LEvent.checkStop = 1
      ∧ (listener_iteration_events stop_signaled).head? = some LEvent.checkStop
      ∧ LEvent.checkStop ∉ (listener_iteration_events stop_signaled).drop 1) := by
  constructor
  · rcases s with ⟨pc, crc, drc, cc, dc⟩
    cases pc
    · simp [listener_step]
    · have hpos : 0 < crc := h2
      simp [listener_step, hpos]
    · exact absurd rfl h1
  · intro stop_signaled
    cases stop_signaled <;> exact ⟨by decide, by decide, by decide⟩

/-- C7 (witness).  A listener blocked at the wait with one unit available
on the ready semaphore terminates and closes its handles after the stop
signal. -/
theorem listener_stop_within_one_iteration_witness :
    (listener_step true (listener_step true
        (ListenerState.mk ListenerPC.atWait 1 0 false false))).pc
      = ListenerPC.done
  ∧ (listener_step true (listener_step true
        (ListenerState.mk ListenerPC.atWait 1 0 false false))).can_read_closed
      = true :=
  ⟨(listener_stop_within_one_iteration
      (ListenerState.mk ListenerPC.atWait 1 0 false false)
      (by decide) (by decide)).1.1,
   (listener_stop_within_one_iteration
      (ListenerState.mk ListenerPC.atWait 1 0 false false)
      (by decide) (by decide)).1.2.1⟩

/-- C9 (confirmed).  For either FF7 edition, `Config::from_config_file`
returns `pause_game_on_background = false` and `launch_chocobo = false`
whatever the configuration table holds; and both options are honoured
(can be enabled) for FF8. -/
theorem ff7_forces_flags_off (table : TomlTable) (display : DisplaySettings)
    (s : StoreType) :
    ((Config.from_config_file table display
        (GameType.FF7 s)).pause_game_on_background = false
      ∧ (Config.from_config_file table display
          (GameType.FF7 s)).launch_chocobo = false)
  ∧ (∀ d : DisplaySettings,
      (Config.from_config_file
          [("pause_game_on_background", TomlValue.boolVal true),
           ("launch_chocobo", TomlValue.boolVal true)] d
          GameType.FF8).pause_game_on_background = true
      ∧ (Config.from_config_file
          [("pause_game_on_background", TomlValue.boolVal true),
           ("launch_chocobo", TomlValue.boolVal true)] d
          GameType.FF8).launch_chocobo = true) :=
  ⟨⟨rfl, rfl⟩, fun _ => ⟨rfl, rfl⟩⟩

/-- C10 (confirmed).  `launch_process` rejects the session before any
action — no process spawn, no semaphore, no mapping, no thread — returning
the no-process error when none of the 11 known executables exists and the
too-many error when more than one does; conversely, whenever it gets past
those two errors, exactly one candidate executable existed. -/
theorem process_candidate_gating (w : World) :
    ((PROCESSES.filter w.file_exists).length = 0 →
      launch_process_run w = ([], some LaunchError.noProcessFound))
  ∧ (1 < (PROCESSES.filter w.file_exists).length →
      launch_process_run w = ([], some LaunchError.tooManyProcesses))
  ∧ ((launch_process_run w).2 ≠ some LaunchError.noProcessFound →
      (launch_process_run w).2 ≠ some LaunchError.tooManyProcesses →
      (PROCESSES.filter w.file_exists).length = 1) := by
  have hzero : (PROCESSES.filter w.file_exists).length = 0 →
      launch_process_run w = ([], some LaunchError.noProcessFound) := by
    intro h0
    have hnil : PROCESSES.filter w.file_exists = [] :=
      List.length_eq_zero.mp h0
    simp [launch_process_run, hnil]
  have hmany : 1 < (PROCESSES.filter w.file_exists).length →
      launch_process_run w = ([], some LaunchError.tooManyProcesses) := by
    intro hgt
    simp [launch_process_run, hgt]
  refine ⟨hzero, hmany, ?_⟩
  intro hne1 hne2
  rcases Nat.lt_trichotomy (PROCESSES.filter w.file_exists).length 1 with
    hlt | heq | hgt
  · exact absurd (congrArg Prod.snd (hzero (Nat.lt_one_iff.mp hlt))) hne1
  · exact heq
  · exact absurd (congrArg Prod.snd (hmany hgt)) hne2

/-- C10 (witness).  With no game executable present, `launch_process`
returns the no-process error having performed no action. -/
theorem process_candidate_gating_witness :
    launch_process_run
        (World.mk (fun _ => false) none (some []) (DisplaySettings.mk false 0 0 0)
          true true true (ProtoWorld.mk true none none (SaveDirFs.mk false none)))
      = ([], some LaunchError.noProcessFound) :=
  (process_candidate_gating
      (World.mk (fun _ => false) none (some []) (DisplaySettings.mk false 0 0 0)
        true true true (ProtoWorld.mk true none none (SaveDirFs.mk false none)))).1
    (by decide)

/-- C8 (confirmed).  When `AF3DN.P` exists with size strictly greater than
1 MiB (FFNx detected) and the configuration does not request the chocobo
launcher, `launch_process` performs exactly two actions — spawn the found
game executable and wait for it to exit — creating no semaphore, no
shared-memory mailbox, no listener thread, and sending none of the
protocol messages. -/
theorem ffnx_bypasses_ipc (w : World) (p : String) (sz : Nat) (table : TomlTable)
    (h1 : PROCESSES.filter w.file_exists = [p])
    (h2 : w.af3dn_size = some sz)
    (h3 : 1024 * 1024 < sz)
    (h4 : w.config_table = some table)
    (h5 : (Config.from_config_file table w.display
        (detect_game_type p w.af3dn_size)).launch_chocobo = false)
    (h6 : w.canonicalize_ok = true) :
    launch_process_run w
      = ([Action.spawnProcess p, Action.waitProcess], none) := by
  have hmem : p ∈ PROCESSES := by
    have hp : p ∈ PROCESSES.filter w.file_exists := by
      rw [h1]; exact List.mem_singleton.mpr rfl
    exact (List.mem_filter.mp hp).1
  have hlang : ∃ lang, extractLang p = some lang := by
    simp only [PROCESSES, List.mem_cons, List.not_mem_nil, or_false] at hmem
    rcases hmem with rfl | rfl | rfl | rfl | rfl | rfl | rfl | rfl | rfl | rfl | rfl <;>
      exact ⟨_, rfl⟩
  rcases hlang with ⟨lang, hlang⟩
  have huse : detect_use_ffnx w.af3dn_size = true := by
    rw [h2]
    simp [detect_use_ffnx, h3]
  simp [launch_process_run, h1, h4, h6, hlang, huse, h5]

/-- C8 (witness).  A world holding only `ff8_en.exe`, a 2 MiB `AF3DN.P`
and an empty configuration table takes the spawn-and-wait-only path. -/
theorem ffnx_bypasses_ipc_witness :
    launch_process_run
        (World.mk (fun n => n == "ff8_en.exe") (some 2097152) (some [])
          (DisplaySettings.mk false 0 0 0) true true true
          (ProtoWorld.mk true none none (SaveDirFs.mk false none)))
      = ([Action.spawnProcess "ff8_en.exe", Action.waitProcess], none) :=
  ffnx_bypasses_ipc
    (World.mk (fun n => n == "ff8_en.exe") (some 2097152) (some [])
      (DisplaySettings.mk false 0 0 0) true true true
      (ProtoWorld.mk true none none (SaveDirFs.mk false none)))
    "ff8_en.exe" 2097152 [] (by decide) rfl (by decide) rfl (by decide) rfl

end FF78
